import Mathlib

/-!
Shallow embedding of the cache / content / quiz subsystem of the
course-content backend (app/services/cache_service.py,
content_service.py, quiz_service.py), together with theorems settling
the specification claims about it.
-/

namespace CourseBackend

/-! Helpers modelling the Python string operations used by the services. -/

/-- Python `str.strip()`: drop leading and trailing whitespace. -/
def pyTrim (s : String) : String :=
  String.mk (((s.data.dropWhile Char.isWhitespace).reverse.dropWhile
    Char.isWhitespace).reverse)

/-- Nonempty and all ASCII digits, on the character list. -/
def allDigits (l : List Char) : Bool :=
  !l.isEmpty && l.all Char.isDigit

/-- Base-10 value of a digit character list. -/
def digitsVal (l : List Char) : Nat :=
  l.foldl (fun acc c => acc * 10 + (c.toNat - 48)) 0

/-- Python `str.isdigit` restricted to ASCII digits: nonempty and all digits. -/
def pyIsDigit (s : String) : Bool :=
  allDigits s.data

/-- Numeric value of an all-digit string. -/
def digitsToNat (s : String) : Nat :=
  digitsVal s.data

/-- Python `int(s)`: strip whitespace, optional sign, base-10 digits; `none` models
a raised `ValueError`. -/
def pyToInt (s : String) : Option Int :=
  match (pyTrim s).data with
  | '-' :: rest => if allDigits rest then some (-(digitsVal rest : Int)) else none
  | '+' :: rest => if allDigits rest then some ((digitsVal rest : Nat) : Int) else none
  | l => if allDigits l then some ((digitsVal l : Nat) : Int) else none

/-- Python `sep.join`, for a single-character separator-free model of
`"\n".join(lines)`. -/
def joinNl : List String → String
  | [] => ""
  | [s] => s
  | s :: rest => s ++ "\n" ++ joinNl rest

/-- Split a character list at every occurrence of a separator character. -/
def splitCharList (c : Char) : List Char → List (List Char)
  | [] => [[]]
  | ch :: rest =>
    let r := splitCharList c rest
    if ch = c then [] :: r
    else
      match r with
      | [] => [[ch]]
      | h :: t => (ch :: h) :: t

/-- Python `s.split(sep)` for a one-character separator. -/
def splitChar (c : Char) (s : String) : List String :=
  (splitCharList c s.data).map String.mk

/-- Split a character list at the first occurrence of a separator, if any. -/
def splitFirstAux (c : Char) : List Char → Option (List Char × List Char)
  | [] => none
  | ch :: rest =>
    if ch = c then some ([], rest)
    else
      match splitFirstAux c rest with
      | none => none
      | some p => some (ch :: p.1, p.2)

/-- Python `s.zfill(2)` as applied to digit strings: left-pad with zeros to width 2. -/
def zfill2 (s : String) : String :=
  if s.length < 2 then String.mk (List.replicate (2 - s.length) '0') ++ s else s

/-- Python `f"{i:02d}"`: two-digit zero-padded decimal rendering of an integer. -/
def fmt2Int (i : Int) : String :=
  if 0 ≤ i ∧ i < 10 then "0" ++ toString i else toString i

/-! Embedded fallback store (the SQLite `cache` table of `CacheService`):
rows `(key PRIMARY KEY, value, expires_at nullable)`. -/

structure CacheRow where
  value : String
  expires_at : Option Nat
deriving Repr, DecidableEq

/-- The `cache` table: a list of `(key, row)` pairs, unique keys by construction. -/
abbrev SqliteTable := List (String × CacheRow)

def tableLookup : SqliteTable → String → Option CacheRow
  | [], _ => none
  | (k, r) :: t, key => if k = key then some r else tableLookup t key

def tableDelete (t : SqliteTable) (key : String) : SqliteTable :=
  t.filter (fun p => p.1 != key)

/-- `REPLACE INTO cache (key, value, expires_at) VALUES (...)`: upsert semantics. -/
def tableReplace (t : SqliteTable) (key : String) (r : CacheRow) : SqliteTable :=
  (key, r) :: tableDelete t key

/-- `CacheService._sqlite_get`: expired rows (`expires_at` non-null, truthy,
and earlier than the current time) are deleted and reported as a miss. -/
def sqlite_get (now : Nat) (t : SqliteTable) (key : String) : Option String × SqliteTable :=
  match tableLookup t key with
  | none => (none, t)
  | some row =>
    match row.expires_at with
    | none => (some row.value, t)
    | some e => if e ≠ 0 ∧ e < now then (none, tableDelete t key) else (some row.value, t)

/-- `CacheService._sqlite_set`: `expires_at = int(time.time() + ttl) if ttl else None`. -/
def sqlite_set (now : Nat) (t : SqliteTable) (key value : String) (ttl : Nat) :
    Bool × SqliteTable :=
  let e : Option Nat := if ttl ≠ 0 then some (now + ttl) else none
  (true, tableReplace t key ⟨value, e⟩)

/-- `CacheService._sqlite_delete`: `DELETE` then report `rowcount > 0`. -/
def sqlite_delete (t : SqliteTable) (key : String) : Bool × SqliteTable :=
  ((tableLookup t key).isSome, tableDelete t key)

/-! The Redis-first, SQLite-fallback state machine of `CacheService`. -/

/-- Configuration environment for lazy Redis initialization:
whether `REDIS_URL` is a nonempty string, and whether `redis.from_url` succeeds. -/
structure RedisEnv where
  url_set : Bool
  from_url_ok : Bool
deriving Repr, DecidableEq

/-- Mutable state of `CacheService`: `redis` is `self.redis is not None`,
`tried` is `self._redis_tried`, `table` is the SQLite fallback table. -/
structure CacheState where
  redis : Bool
  tried : Bool
  table : SqliteTable
deriving Repr, DecidableEq

/-- Outcome the Redis client would produce for one call if consulted:
a returned value, or a raised exception / timeout / cancellation. -/
inductive RTrace (α : Type) where
  | ok : α → RTrace α
  | err : RTrace α
deriving Repr, DecidableEq

/-- `settings.REDIS_CACHE_TTL` (config default 3600 seconds). -/
def default_ttl : Nat := 3600

/-- `CacheService._init_redis_if_needed`. -/
def init_redis_if_needed (env : RedisEnv) (s : CacheState) : CacheState :=
  if s.tried then s
  else if !env.url_set then { s with tried := true, redis := false }
  else { s with tried := true, redis := env.from_url_ok }

/-- `CacheService.get`: Redis first (a falsy reply falls through to SQLite without
disabling Redis; a timeout or exception sets `self.redis = None`), then SQLite.
Returns the value, the new state, and whether Redis was consulted. -/
def cache_get (env : RedisEnv) (r : RTrace (Option String)) (now : Nat)
    (s : CacheState) (key : String) : Option String × CacheState × Bool :=
  let s1 := init_redis_if_needed env s
  if s1.redis then
    match r with
    | .ok (some v) =>
      if v ≠ "" then (some v, s1, true)
      else
        let p := sqlite_get now s1.table key
        (p.1, { s1 with table := p.2 }, true)
    | .ok none =>
      let p := sqlite_get now s1.table key
      (p.1, { s1 with table := p.2 }, true)
    | .err =>
      let p := sqlite_get now s1.table key
      (p.1, { s1 with redis := false, table := p.2 }, true)
  else
    let p := sqlite_get now s1.table key
    (p.1, { s1 with table := p.2 }, false)

/-- Python `ttl = ttl or self.default_ttl`: `None` and `0` are both replaced by
the default TTL. -/
def effective_ttl (ttl : Option Nat) : Nat :=
  match ttl with
  | some t => if t ≠ 0 then t else default_ttl
  | none => default_ttl

/-- `CacheService.set`: Redis `setex` first (success returns `True` without touching
SQLite; a timeout or exception sets `self.redis = None`), then SQLite upsert. -/
def cache_set (env : RedisEnv) (r : RTrace Unit) (now : Nat)
    (s : CacheState) (key value : String) (ttl : Option Nat) : Bool × CacheState × Bool :=
  let t := effective_ttl ttl
  let s1 := init_redis_if_needed env s
  if s1.redis then
    match r with
    | .ok _ => (true, s1, true)
    | .err =>
      let p := sqlite_set now s1.table key value t
      (p.1, { s1 with redis := false, table := p.2 }, true)
  else
    let p := sqlite_set now s1.table key value t
    (p.1, { s1 with table := p.2 }, false)

/-- `CacheService.delete`: Redis `delete` first, SQLite fallback on failure. -/
def cache_delete (env : RedisEnv) (r : RTrace Unit) (_now : Nat)
    (s : CacheState) (key : String) : Bool × CacheState × Bool :=
  let s1 := init_redis_if_needed env s
  if s1.redis then
    match r with
    | .ok _ => (true, s1, true)
    | .err =>
      let p := sqlite_delete s1.table key
      (p.1, { s1 with redis := false, table := p.2 }, true)
  else
    let p := sqlite_delete s1.table key
    (p.1, { s1 with table := p.2 }, false)

/-! Operation sequences over the cache, for the temporal circuit-breaker claim. -/

/-- One public cache operation, carrying the oracle outcome the Redis client would
give if consulted, and the wall-clock time of the call. -/
inductive CacheOp where
  | opGet (key : String) (r : RTrace (Option String)) (now : Nat)
  | opSet (key value : String) (ttl : Option Nat) (r : RTrace Unit) (now : Nat)
  | opDel (key : String) (r : RTrace Unit) (now : Nat)
deriving Repr, DecidableEq

/-- Whether the operation carries a failing (timeout / exception) Redis outcome. -/
def CacheOp.failing : CacheOp → Bool
  | .opGet _ r _ => match r with | .err => true | .ok _ => false
  | .opSet _ _ _ r _ => match r with | .err => true | .ok _ => false
  | .opDel _ r _ => match r with | .err => true | .ok _ => false

/-! Quiz service (`app/services/quiz_service.py`).  Stored and cached quiz JSON
is modelled structurally, treating the `json.dumps` / `json.loads` round trip as
the identity on well-formed data; a field that may be missing from the raw JSON
dict is an `Option`, with `none` for absence. -/

/-- One answer of a submission (schema `QuizAnswer`). -/
structure QuizAnswer where
  question_id : String
  selected_index : Int
deriving Repr, DecidableEq

/-- A quiz submission (schema `QuizSubmission`). -/
structure QuizSubmission where
  user_id : String
  answers : List QuizAnswer
deriving Repr, DecidableEq

/-- One question of the stored quiz JSON.  `correct_answer_index`,
`correct_answer` and `explanation` are the answer-key fields that the public
form strips. -/
structure QuestionData where
  question_id : String
  qtype : String
  question : String
  options : List String
  difficulty : String
  correct_answer_index : Option Int
  correct_answer : Option Bool
  explanation : Option String
deriving Repr, DecidableEq

/-- The stored quiz JSON.  `passing_score` is read with
`quiz_data.get("passing_score", 70)`, hence optional here. -/
structure QuizData where
  quiz_id : String
  chapter_id : String
  title : String
  total_questions : Nat
  passing_score : Option Int
  questions : List QuestionData
deriving Repr, DecidableEq

/-- `COURSE_PREFIX` of both services (the course namespace in the object store). -/
def courseNS : String := "genai-fundamentals"

/-- Cache key used by `get_quiz`. -/
def quizCacheKey (chapter_id : String) : String := "quiz:" ++ chapter_id

/-- Durable-store key used by `get_quiz` and `submit_quiz`:
the chapter id is interpolated verbatim. -/
def quizStorageKey (chapter_id : String) : String :=
  courseNS ++ "/quizzes/quiz-" ++ chapter_id ++ ".json"

/-- The three `question.pop(...)` calls of `get_quiz`. -/
def stripQuestion (q : QuestionData) : QuestionData :=
  { q with correct_answer_index := none, correct_answer := none, explanation := none }

/-- Public form of a quiz: every question stripped of its answer key. -/
def stripQuiz (qd : QuizData) : QuizData :=
  { qd with questions := qd.questions.map stripQuestion }

/-- Cache contents as seen by the quiz service (key to parsed cached JSON). -/
abbrev QuizCache := String → Option QuizData

def updateQuizCache (c : QuizCache) (k : String) (v : QuizData) : QuizCache :=
  fun k2 => if k2 = k then some v else c k2

/-- `QuizService.get_quiz`: cache hit, else storage fetch plus cache fill with the
full form; either way the returned quiz is the stripped deep copy.  `Except.error`
models the raised `ValueError` when no quiz exists. -/
def get_quiz (cache : QuizCache) (storage : String → Option QuizData)
    (chapter_id : String) : Except Unit (QuizData × QuizCache) :=
  match cache (quizCacheKey chapter_id) with
  | some qd => .ok (stripQuiz qd, cache)
  | none =>
    match storage (quizStorageKey chapter_id) with
    | none => .error ()
    | some qd => .ok (stripQuiz qd, updateQuizCache cache (quizCacheKey chapter_id) qd)

/-- Per-question grading result (schema `QuestionResult`). -/
structure QuestionResult where
  question_id : String
  correct : Bool
  selected_index : Int
  correct_index : Int
  explanation : String
deriving Repr, DecidableEq

/-- Which of the four fixed feedback messages `_generate_feedback` picks. -/
inductive Feedback where
  | mastery
  | strong
  | passedMsg
  | retry
deriving Repr, DecidableEq

/-- `QuizService._generate_feedback`: fixed score thresholds. -/
def generate_feedback (score : ℚ) (passed : Bool) : Feedback :=
  if 90 ≤ score then .mastery
  else if 80 ≤ score then .strong
  else if passed then .passedMsg
  else .retry

/-- Grading outcome (schema `QuizResult`); the score is exact rational arithmetic. -/
structure QuizResult where
  quiz_id : String
  score : ℚ
  passed : Bool
  total_questions : Nat
  correct_answers : Nat
  results : List QuestionResult
  feedback : Feedback
deriving Repr, DecidableEq

/-- The correctness check of `submit_quiz` for one matched question: direct
index comparison when `correct_answer_index` is defined, otherwise the stored
`correct_answer` boolean mapped to index 1 (true) or 0 (false, or missing).
Returns the correctness flag and the `correct_index` reported back. -/
def gradeOne (q : QuestionData) (selected : Int) : Bool × Int :=
  match q.correct_answer_index with
  | none =>
    let ci : Int := if q.correct_answer.getD false then 1 else 0
    (decide (selected = ci), ci)
  | some ci => (decide (selected = ci), ci)

/-- The grading loop of `submit_quiz`: walk the submitted answers in order,
skip answers whose question id matches no question, count correct answers and
collect per-question results. -/
def gradeAnswers (questions : List QuestionData) : List QuizAnswer → Nat × List QuestionResult
  | [] => (0, [])
  | a :: rest =>
    match questions.find? (fun q => q.question_id == a.question_id) with
    | none => gradeAnswers questions rest
    | some q =>
      let g := gradeOne q a.selected_index
      let p := gradeAnswers questions rest
      ((if g.1 then 1 else 0) + p.1,
        { question_id := a.question_id, correct := g.1, selected_index := a.selected_index,
          correct_index := g.2, explanation := q.explanation.getD "" } :: p.2)

/-- `QuizService.submit_quiz`: fetch the full quiz directly from the durable
store (bypassing the cache), grade, and build the result.  `Except.error` models
the raised `ValueError` when no quiz exists. -/
def submit_quiz (storage : String → Option QuizData) (chapter_id : String)
    (submission : QuizSubmission) : Except Unit QuizResult :=
  match storage (quizStorageKey chapter_id) with
  | none => .error ()
  | some qd =>
    let g := gradeAnswers qd.questions submission.answers
    let total_questions := submission.answers.length
    let score : ℚ :=
      if 0 < total_questions then (g.1 : ℚ) / (total_questions : ℚ) * 100 else 0
    let passing_score : Int := qd.passing_score.getD 70
    let passed : Bool := decide ((passing_score : ℚ) ≤ score)
    .ok { quiz_id := qd.quiz_id, score := score, passed := passed,
          total_questions := total_questions, correct_answers := g.1,
          results := g.2, feedback := generate_feedback score passed }

/-! Content service (`app/services/content_service.py`). -/

/-- Schema `ChapterContent`. -/
structure ChapterContent where
  chapter_id : String
  title : String
  level : String
  content : String
  next_chapter : Option String
  previous_chapter : Option String
  estimated_minutes : Int
  has_quiz : Bool
  is_free : Bool
deriving Repr, DecidableEq

/-- Python `metadata[key] = value` on a dict, modelled as replace-insert. -/
def dictSet (d : List (String × String)) (k v : String) : List (String × String) :=
  (k, v) :: d.filter (fun p => p.1 != k)

/-- Python `metadata.get(key)` on the dict model. -/
def dictGet : List (String × String) → String → Option String
  | [], _ => none
  | (k, v) :: d, key => if k = key then some v else dictGet d key

/-- Python `value.strip('"')`: remove all leading and trailing quote characters. -/
def stripQuotes (s : String) : String :=
  String.mk (((s.data.dropWhile (· == '"')).reverse.dropWhile (· == '"')).reverse)

/-- Python `line.split(":", 1)` guarded by `":" in line`. -/
def splitColon1 (line : String) : Option (String × String) :=
  (splitFirstAux ':' line.data).map (fun p => (String.mk p.1, String.mk p.2))

/-- The frontmatter scan of `_parse_chapter_markdown`: walk the lines after the
opening marker, collecting `key: value` pairs until a closing marker; return the
metadata collected and the body start index when a closing marker was found. -/
def scanFront : List String → Nat → List (String × String) →
    List (String × String) × Option Nat
  | [], _, md => (md, none)
  | line :: rest, i, md =>
    if pyTrim line = "---" then (md, some (i + 1))
    else
      match splitColon1 line with
      | some kv =>
        scanFront rest (i + 1) (dictSet md (pyTrim kv.1) (stripQuotes (pyTrim kv.2)))
      | none => scanFront rest (i + 1) md

/-- `ContentService._parse_chapter_markdown`.  `none` models the `ValueError`
raised by `int(...)` on a malformed `estimated_minutes` value, which
`get_chapter` catches. -/
def parse_chapter_markdown (content : String) (chapter_id : String) :
    Option ChapterContent :=
  let lines := splitChar '\n' content
  let scanned :=
    match lines with
    | [] => ([], 0)
    | first :: rest =>
      if pyTrim first = "---" then
        let p := scanFront rest 1 []
        (p.1, p.2.getD 0)
      else ([], 0)
  let metadata := scanned.1
  let content_body := joinNl (lines.drop scanned.2)
  let nav :=
    match pyToInt chapter_id with
    | some n => (if n < 10 then some (fmt2Int (n + 1)) else none,
                 if 1 < n then some (fmt2Int (n - 1)) else none)
    | none => (none, none)
  let is_free : Bool :=
    if pyIsDigit chapter_id then decide ((digitsToNat chapter_id : Int) ≤ 3) else false
  let em :=
    match dictGet metadata "estimated_minutes" with
    | none => some (180 : Int)
    | some s => pyToInt s
  em.map (fun m =>
    { chapter_id := chapter_id,
      title := (dictGet metadata "title").getD ("Chapter " ++ chapter_id),
      level := (dictGet metadata "level").getD "beginner",
      content := content_body,
      next_chapter := nav.1,
      previous_chapter := nav.2,
      estimated_minutes := m,
      has_quiz := true,
      is_free := is_free })

/-- A cached chapter entry as the service sees it: a value that parses into
valid chapter data, or a truthy-but-malformed value that is logged and skipped. -/
inductive CVal where
  | good : ChapterContent → CVal
  | bad : CVal
deriving Repr, DecidableEq

/-- Cache contents as seen by the content service. -/
abbrev ChapterCache := String → Option CVal

def chapterCacheKey (cid : String) : String := "chapter:" ++ cid

/-- Durable-store key used by `get_chapter` (built from the normalized id). -/
def chapterStorageKey (norm : String) : String :=
  courseNS ++ "/chapters/chapter-" ++ norm ++ ".md"

/-- The id normalization of `get_chapter`: zero-pad all-digit ids to two digits. -/
def normalizeChapterId (cid : String) : String :=
  if pyIsDigit cid then zfill2 cid else cid

/-- The list of cache keys `get_chapter` tries, in order. -/
def chapterCacheKeys (cid : String) : List String :=
  let norm := normalizeChapterId cid
  if cid ≠ norm then [chapterCacheKey cid, chapterCacheKey norm] else [chapterCacheKey cid]

/-- The cache-probing loop of `get_chapter`: first entry that parses wins;
missing or malformed entries are skipped. -/
def firstGoodHit (cache : ChapterCache) : List String → Option ChapterContent
  | [] => none
  | k :: rest =>
    match cache k with
    | some (.good c) => some c
    | _ => firstGoodHit cache rest

def updateChapterCache (c : ChapterCache) (k : String) (v : CVal) : ChapterCache :=
  fun k2 => if k2 = k then some v else c k2

/-- `ContentService.get_chapter`: normalize the id, probe the cache under the
original and normalized keys, then fetch markdown from the durable store under
the normalized key, parse it, and cache the parsed chapter under the normalized
key.  Returns the chapter (or `none`) and the updated cache. -/
def get_chapter (cache : ChapterCache) (storage : String → Option String)
    (chapter_id : String) : Option ChapterContent × ChapterCache :=
  let norm := normalizeChapterId chapter_id
  match firstGoodHit cache (chapterCacheKeys chapter_id) with
  | some c => (some c, cache)
  | none =>
    match storage (chapterStorageKey norm) with
    | none => (none, cache)
    | some content =>
      if content = "" then (none, cache)
      else
        match parse_chapter_markdown content norm with
        | none => (none, cache)
        | some ch => (some ch, updateChapterCache cache (chapterCacheKey norm) (.good ch))

/-- Run one operation; return the new state and whether Redis was consulted. -/
def stepOp (env : RedisEnv) (s : CacheState) : CacheOp → CacheState × Bool
  | .opGet k r now => ((cache_get env r now s k).2.1, (cache_get env r now s k).2.2)
  | .opSet k v ttl r now => ((cache_set env r now s k v ttl).2.1, (cache_set env r now s k v ttl).2.2)
  | .opDel k r now => ((cache_delete env r now s k).2.1, (cache_delete env r now s k).2.2)

/-- Run a sequence of operations; return the final state and whether any
operation consulted Redis. -/
def runOps (env : RedisEnv) (s : CacheState) : List CacheOp → CacheState × Bool
  | [] => (s, false)
  | op :: ops =>
    let p := stepOp env s op
    let q := runOps env p.1 ops
    (q.1, p.2 || q.2)


/-! Sample data used by witnesses and counterexamples. -/

/-- A multiple-choice question with a full answer key. -/
def q1ex : QuestionData :=
  ⟨"q1", "multiple_choice", "What is X", ["a", "b", "c"], "easy", some 0, none,
    some "because"⟩

/-- A second multiple-choice question, correct index 2. -/
def q2ex : QuestionData :=
  ⟨"q2", "multiple_choice", "What is Y", ["a", "b", "c"], "easy", some 2, none,
    some "since"⟩

/-- A quiz with a full answer key. -/
def quizEx : QuizData := ⟨"quiz-01", "01", "Chapter 1 Quiz", 1, some 70, [q1ex]⟩

/-- A two-question quiz with correct answer indices 0 and 2 and no
explicit passing score. -/
def quizEx2 : QuizData := ⟨"quiz-02", "02", "Chapter 2 Quiz", 2, none, [q1ex, q2ex]⟩

/-- A durable store holding `quizEx` under the verbatim-id quiz key for "01". -/
def storageEx : String → Option QuizData :=
  fun k => if k = quizStorageKey "01" then some quizEx else none

/-- A durable store holding `quizEx2` under the verbatim-id quiz key for "02". -/
def storageEx2 : String → Option QuizData :=
  fun k => if k = quizStorageKey "02" then some quizEx2 else none

/-! Helper lemmas. -/

theorem tableLookup_tableDelete (t : SqliteTable) (k : String) :
    tableLookup (tableDelete t k) k = none := by
  induction t with
  | nil => rfl
  | cons p t ih =>
    rcases p with ⟨k1, r⟩
    by_cases h : k1 = k
    · simpa [tableDelete, List.filter_cons, h] using ih
    · simpa [tableDelete, List.filter_cons, h, tableLookup] using ih

theorem init_redis_tried (env : RedisEnv) (s : CacheState) :
    (init_redis_if_needed env s).tried = true := by
  by_cases h : s.tried
  · simp [init_redis_if_needed, h]
  · by_cases h2 : env.url_set <;> simp [init_redis_if_needed, h, h2]

theorem init_redis_of_tried (env : RedisEnv) (s : CacheState) (h : s.tried = true) :
    init_redis_if_needed env s = s := by
  simp [init_redis_if_needed, h]

theorem stepOp_disabled (env : RedisEnv) (s : CacheState) (op : CacheOp)
    (h1 : s.redis = false) (h2 : s.tried = true) :
    (stepOp env s op).2 = false ∧ (stepOp env s op).1.redis = false ∧
      (stepOp env s op).1.tried = true := by
  cases op <;>
    simp [stepOp, cache_get, cache_set, cache_delete, init_redis_of_tried env s h2, h1, h2]

theorem runOps_disabled (env : RedisEnv) (ops : List CacheOp) (s : CacheState)
    (h1 : s.redis = false) (h2 : s.tried = true) :
    (runOps env s ops).2 = false ∧ (runOps env s ops).1.redis = false ∧
      (runOps env s ops).1.tried = true := by
  induction ops generalizing s with
  | nil => simpa [runOps] using ⟨h1, h2⟩
  | cons op ops ih =>
    obtain ⟨hu, hr, ht⟩ := stepOp_disabled env s op h1 h2
    obtain ⟨iu, ir, it⟩ := ih (stepOp env s op).1 hr ht
    simp [runOps, hu, iu, ir, it]

theorem effective_ttl_ne_zero (ttl : Option Nat) : effective_ttl ttl ≠ 0 := by
  cases ttl with
  | none => simp [effective_ttl, default_ttl]
  | some t => by_cases h : t = 0 <;> simp [effective_ttl, h, default_ttl]

theorem tableLookup_tableReplace (t : SqliteTable) (k : String) (r : CacheRow) :
    tableLookup (tableReplace t k r) k = some r := by
  simp [tableReplace, tableLookup]

theorem sqlite_get_live (now2 : Nat) (t : SqliteTable) (k v : String) (e : Nat)
    (h : ¬(e ≠ 0 ∧ e < now2)) :
    sqlite_get now2 (tableReplace t k ⟨v, some e⟩) k
      = (some v, tableReplace t k ⟨v, some e⟩) := by
  have hrow := tableLookup_tableReplace t k (⟨v, some e⟩ : CacheRow)
  simp only [sqlite_get, hrow]
  rw [if_neg h]

theorem sqlite_get_expired (now : Nat) (t : SqliteTable) (k v : String) (e : Nat)
    (hrow : tableLookup t k = some ⟨v, some e⟩) (he : e ≠ 0) (hlt : e < now) :
    sqlite_get now t k = (none, tableDelete t k) := by
  simp only [sqlite_get, hrow]
  rw [if_pos ⟨he, hlt⟩]

theorem cache_get_disabled (env : RedisEnv) (rg : RTrace (Option String)) (now : Nat)
    (s : CacheState) (k : String) (h1 : s.redis = false) (h2 : s.tried = true) :
    cache_get env rg now s k =
      ((sqlite_get now s.table k).1, { s with table := (sqlite_get now s.table k).2 },
        false) := by
  simp [cache_get, init_redis_of_tried env s h2, h1]

theorem cache_delete_disabled (env : RedisEnv) (rg : RTrace Unit) (now : Nat)
    (s : CacheState) (k : String) (h1 : s.redis = false) (h2 : s.tried = true) :
    cache_delete env rg now s k =
      ((sqlite_delete s.table k).1, { s with table := (sqlite_delete s.table k).2 },
        false) := by
  simp [cache_delete, init_redis_of_tried env s h2, h1]

theorem cache_set_err_parts (env : RedisEnv) (now : Nat) (s : CacheState)
    (k v : String) (ttl : Option Nat) :
    (cache_set env .err now s k v ttl).1 = true ∧
    (cache_set env .err now s k v ttl).2.1.redis = false ∧
    (cache_set env .err now s k v ttl).2.1.tried = true ∧
    (cache_set env .err now s k v ttl).2.1.table =
      tableReplace (init_redis_if_needed env s).table k
        ⟨v, some (now + effective_ttl ttl)⟩ := by
  by_cases h : (init_redis_if_needed env s).redis <;>
    simp [cache_set, h, init_redis_tried, sqlite_set, effective_ttl_ne_zero]

theorem cache_set_disabled (env : RedisEnv) (rs : RTrace Unit) (now : Nat)
    (s : CacheState) (k v : String) (ttl : Option Nat)
    (h1 : s.redis = false) (h2 : s.tried = true) :
    cache_set env rs now s k v ttl =
      (true, { s with table :=
          tableReplace s.table k (CacheRow.mk v (some (now + effective_ttl ttl))) },
        false) := by
  simp [cache_set, init_redis_of_tried env s h2, h1, sqlite_set, effective_ttl_ne_zero]

theorem stepOp_err_consulted (env : RedisEnv) (s : CacheState) (op : CacheOp)
    (hf : op.failing = true) (hu : (stepOp env s op).2 = true) :
    (stepOp env s op).1.redis = false ∧ (stepOp env s op).1.tried = true := by
  cases op with
  | opGet k r now =>
    cases r with
    | ok v => simp [CacheOp.failing] at hf
    | err =>
      by_cases h : (init_redis_if_needed env s).redis
      · simp [stepOp, cache_get, h, init_redis_tried]
      · simp [stepOp, cache_get, h] at hu
  | opSet k v ttl r now =>
    cases r with
    | ok u => simp [CacheOp.failing] at hf
    | err =>
      by_cases h : (init_redis_if_needed env s).redis
      · simp [stepOp, cache_set, h, init_redis_tried]
      · simp [stepOp, cache_set, h] at hu
  | opDel k r now =>
    cases r with
    | ok u => simp [CacheOp.failing] at hf
    | err =>
      by_cases h : (init_redis_if_needed env s).redis
      · simp [stepOp, cache_delete, h, init_redis_tried]
      · simp [stepOp, cache_delete, h] at hu

/-! Claim theorems. -/

/-- C1, counterexample.  The claim says an embedded-fallback `set` with `ttl=0`
makes the entry absent on the next `get` and removes the row.  With Redis
disabled, `set("k", "v", ttl=0)` at time 1000 followed by `get("k")` at time
1001 still returns `"v"`, and the row is still in the table with
`expires_at = 1000 + 3600`: `ttl = ttl or self.default_ttl` replaces 0 by the
default TTL. -/
theorem C1_counterexample :
    (cache_get ⟨false, false⟩ .err 1001
        (cache_set ⟨false, false⟩ .err 1000 ⟨false, true, []⟩ "k" "v" (some 0)).2.1 "k").1
      = some "v" ∧
    tableLookup (cache_get ⟨false, false⟩ .err 1001
        (cache_set ⟨false, false⟩ .err 1000 ⟨false, true, []⟩ "k" "v" (some 0)).2.1 "k").2.1.table
        "k" = some ⟨"v", some 4600⟩ := by
  constructor <;> rfl

/-- C1, amended.  For the embedded fallback store (Redis disabled): a `set` with
`ttl=0` stores the entry under the default TTL (3600 s), so the entry is still
present on any `get` within that window; an entry whose `expires_at` is a
nonzero past timestamp is absent on the next `get`, and that `get` removes the
row from the underlying table. -/
theorem C1_ttl_expiry_amended :
    (∀ (env : RedisEnv) (s : CacheState) (now now2 : Nat) (k v : String)
        (rs : RTrace Unit) (rg : RTrace (Option String)),
        s.redis = false → s.tried = true → now2 ≤ now + default_ttl →
        (cache_get env rg now2 (cache_set env rs now s k v (some 0)).2.1 k).1 = some v) ∧
    (∀ (env : RedisEnv) (s : CacheState) (now e : Nat) (k v : String)
        (rg : RTrace (Option String)),
        s.redis = false → s.tried = true →
        tableLookup s.table k = some ⟨v, some e⟩ → e ≠ 0 → e < now →
        (cache_get env rg now s k).1 = none ∧
        tableLookup (cache_get env rg now s k).2.1.table k = none) := by
  constructor
  · intro env s now now2 k v rs rg h1 h2 hle
    have h0 : effective_ttl (some 0) = default_ttl := by simp [effective_ttl]
    rw [cache_set_disabled env rs now s k v (some 0) h1 h2, h0]
    show (cache_get env rg now2
        { s with table := tableReplace s.table k (CacheRow.mk v (some (now + default_ttl))) }
        k).1 = some v
    rw [cache_get_disabled env rg now2
        { s with table := tableReplace s.table k (CacheRow.mk v (some (now + default_ttl))) }
        k h1 h2]
    show (sqlite_get now2 (tableReplace s.table k
        (CacheRow.mk v (some (now + default_ttl)))) k).1 = some v
    rw [sqlite_get_live now2 s.table k v (now + default_ttl) (by omega)]
  · intro env s now e k v rg h1 h2 hrow he hpast
    rw [cache_get_disabled env rg now s k h1 h2]
    rw [sqlite_get_expired now s.table k v e hrow he hpast]
    exact ⟨rfl, tableLookup_tableDelete s.table k⟩

/-- C1, witness for the amended theorem at concrete inputs. -/
theorem C1_ttl_expiry_amended_witness :
    (cache_get ⟨false, false⟩ .err 2000
        (cache_set ⟨false, false⟩ .err 1000 ⟨false, true, []⟩ "a" "x" (some 0)).2.1 "a").1
      = some "x" ∧
    (cache_get ⟨false, false⟩ .err 100 ⟨false, true, [("b", ⟨"y", some 50⟩)]⟩ "b").1 = none ∧
    tableLookup (cache_get ⟨false, false⟩ .err 100
        ⟨false, true, [("b", ⟨"y", some 50⟩)]⟩ "b").2.1.table "b" = none := by
  refine ⟨C1_ttl_expiry_amended.1 ⟨false, false⟩ ⟨false, true, []⟩ 1000 2000 "a" "x"
      .err .err rfl rfl (by decide), ?_, ?_⟩
  · exact (C1_ttl_expiry_amended.2 ⟨false, false⟩ ⟨false, true, [("b", ⟨"y", some 50⟩)]⟩
      100 50 "b" "y" .err rfl rfl rfl (by omega) (by omega)).1
  · exact (C1_ttl_expiry_amended.2 ⟨false, false⟩ ⟨false, true, [("b", ⟨"y", some 50⟩)]⟩
      100 50 "b" "y" .err rfl rfl rfl (by omega) (by omega)).2

/-- C6.  One-way circuit breaker: once a cache operation consults the fast
store and the call times out, is cancelled, or raises (a failing outcome), the
client is torn down, and no operation of any subsequent sequence ever consults
the fast store again or re-creates the client. -/
theorem C6_one_way_circuit_breaker (env : RedisEnv) (s : CacheState) (op : CacheOp)
    (ops : List CacheOp) (hf : op.failing = true) (hu : (stepOp env s op).2 = true) :
    (stepOp env s op).1.redis = false ∧
    (runOps env (stepOp env s op).1 ops).2 = false ∧
    (runOps env (stepOp env s op).1 ops).1.redis = false := by
  obtain ⟨hr, ht⟩ := stepOp_err_consulted env s op hf hu
  obtain ⟨h1, h2, _⟩ := runOps_disabled env ops _ hr ht
  exact ⟨hr, h1, h2⟩

/-- C6, witness: a concrete failing `get` followed by further operations whose
oracle says the fast store would now answer, which are nevertheless served
without it. -/
theorem C6_one_way_circuit_breaker_witness :
    (stepOp ⟨true, true⟩ ⟨false, false, []⟩ (.opGet "k" .err 5)).1.redis = false ∧
    (runOps ⟨true, true⟩ (stepOp ⟨true, true⟩ ⟨false, false, []⟩ (.opGet "k" .err 5)).1
        [.opSet "a" "b" none (.ok ()) 6, .opGet "a" (.ok (some "zz")) 7]).2 = false ∧
    (runOps ⟨true, true⟩ (stepOp ⟨true, true⟩ ⟨false, false, []⟩ (.opGet "k" .err 5)).1
        [.opSet "a" "b" none (.ok ()) 6, .opGet "a" (.ok (some "zz")) 7]).1.redis = false :=
  C6_one_way_circuit_breaker ⟨true, true⟩ ⟨false, false, []⟩ (.opGet "k" .err 5)
    [.opSet "a" "b" none (.ok ()) 6, .opGet "a" (.ok (some "zz")) 7] rfl rfl

/-- C7.  With the fast-store client failing on every operation, `set`, `get`
and `delete` all complete via the embedded fallback store: the `set` reports
success, a later `get` within the TTL returns the value just set, and a later
`delete` of that key reports success. -/
theorem C7_fallback_when_redis_fails (env : RedisEnv) (s : CacheState)
    (now now2 : Nat) (k v : String) (ttl : Nat)
    (httl : ttl ≠ 0) (hnow : now2 ≤ now + ttl) :
    (cache_set env .err now s k v (some ttl)).1 = true ∧
    (cache_get env .err now2 (cache_set env .err now s k v (some ttl)).2.1 k).1 = some v ∧
    (cache_delete env .err now2 (cache_set env .err now s k v (some ttl)).2.1 k).1 = true := by
  obtain ⟨hok, hr, ht, htab⟩ := cache_set_err_parts env now s k v (some ttl)
  have heff : effective_ttl (some ttl) = ttl := by simp [effective_ttl, httl]
  rw [heff] at htab
  refine ⟨hok, ?_, ?_⟩
  · rw [cache_get_disabled env .err now2 _ k hr ht]
    show (sqlite_get now2 (cache_set env .err now s k v (some ttl)).2.1.table k).1
      = some v
    rw [htab, sqlite_get_live _ _ k v (now + ttl) (by omega)]
  · rw [cache_delete_disabled env .err now2 _ k hr ht]
    show (sqlite_delete (cache_set env .err now s k v (some ttl)).2.1.table k).1 = true
    rw [htab]
    simp [sqlite_delete, tableReplace, tableLookup]

/-- C7, witness at concrete inputs. -/
theorem C7_fallback_when_redis_fails_witness :
    (cache_set ⟨true, true⟩ .err 10 ⟨false, false, []⟩ "k" "v" (some 60)).1 = true ∧
    (cache_get ⟨true, true⟩ .err 11
        (cache_set ⟨true, true⟩ .err 10 ⟨false, false, []⟩ "k" "v" (some 60)).2.1 "k").1
      = some "v" ∧
    (cache_delete ⟨true, true⟩ .err 11
        (cache_set ⟨true, true⟩ .err 10 ⟨false, false, []⟩ "k" "v" (some 60)).2.1 "k").1
      = true :=
  C7_fallback_when_redis_fails ⟨true, true⟩ ⟨false, false, []⟩ 10 11 "k" "v" 60
    (by omega) (by omega)

/-- C2.  Whenever `get_quiz` succeeds — cache hit or durable-store fetch — every
question of the returned quiz has `correct_answer_index`, `correct_answer` and
`explanation` absent, while the cache is either untouched (hit path) or filled,
at the quiz cache key only, with exactly the full unstripped quiz read from the
durable store. -/
theorem C2_public_quiz_stripped (cache : QuizCache) (storage : String → Option QuizData)
    (cid : String) (pq : QuizData) (cache2 : QuizCache)
    (h : get_quiz cache storage cid = .ok (pq, cache2)) :
    (∀ q ∈ pq.questions,
        q.correct_answer_index = none ∧ q.correct_answer = none ∧ q.explanation = none) ∧
    (cache2 (quizCacheKey cid) = cache (quizCacheKey cid) ∨
      cache2 (quizCacheKey cid) = storage (quizStorageKey cid)) ∧
    (∀ k2, k2 ≠ quizCacheKey cid → cache2 k2 = cache k2) := by
  unfold get_quiz at h
  cases hc : cache (quizCacheKey cid) with
  | some qd =>
    rw [hc] at h
    obtain ⟨h1, h2⟩ : stripQuiz qd = pq ∧ cache = cache2 := by
      simpa using h
    subst h1
    subst h2
    refine ⟨?_, Or.inl hc, fun k2 _ => rfl⟩
    intro q hq
    rcases List.mem_map.mp hq with ⟨q0, -, rfl⟩
    exact ⟨rfl, rfl, rfl⟩
  | none =>
    rw [hc] at h
    cases hs : storage (quizStorageKey cid) with
    | none => rw [hs] at h; exact absurd h (by simp)
    | some qd =>
      rw [hs] at h
      obtain ⟨h1, h2⟩ : stripQuiz qd = pq ∧
          updateQuizCache cache (quizCacheKey cid) qd = cache2 := by
        simpa using h
      subst h1
      subst h2
      refine ⟨?_, Or.inr ?_, fun k2 hk2 => ?_⟩
      · intro q hq
        rcases List.mem_map.mp hq with ⟨q0, -, rfl⟩
        exact ⟨rfl, rfl, rfl⟩
      · simp [updateQuizCache, hs]
      · simp [updateQuizCache, hk2]

/-- C2, witness: stripped fields of the concrete public quiz, and the cache
filled with the full form on the miss path. -/
theorem C2_public_quiz_stripped_witness :
    (stripQuestion q1ex).correct_answer_index = none ∧
    (stripQuestion q1ex).correct_answer = none ∧
    (stripQuestion q1ex).explanation = none ∧
    updateQuizCache (fun _ => none) (quizCacheKey "01") quizEx (quizCacheKey "01")
      = storageEx (quizStorageKey "01") := by
  have h := C2_public_quiz_stripped (fun _ => none) storageEx "01" (stripQuiz quizEx)
    (updateQuizCache (fun _ => none) (quizCacheKey "01") quizEx) rfl
  have hm : stripQuestion q1ex ∈ (stripQuiz quizEx).questions := by
    simp [stripQuiz, quizEx]
  obtain ⟨ha, hb, hc⟩ := h.1 (stripQuestion q1ex) hm
  refine ⟨ha, hb, hc, ?_⟩
  exact h.2.1.resolve_left (by simp [updateQuizCache])

/-- C3.  `submit_quiz` scores `correct_count / total_submitted_answers * 100`
(0, not an error, for an empty submission), passes iff the score reaches the
passing score (quiz-defined, default 70), and on the concrete two-question quiz
with correct indices 0 and 2 a submission answering indices 0 and 1 yields one
correct answer and score 50. -/
theorem C3_submit_scoring :
    (∀ (storage : String → Option QuizData) (cid : String) (sub : QuizSubmission)
        (qd : QuizData) (res : QuizResult),
        storage (quizStorageKey cid) = some qd →
        submit_quiz storage cid sub = .ok res →
        res.score = (if sub.answers.length = 0 then 0
          else (res.correct_answers : ℚ) / (sub.answers.length : ℚ) * 100) ∧
        res.passed = decide (((qd.passing_score.getD 70 : Int) : ℚ) ≤ res.score)) ∧
    (∀ (storage : String → Option QuizData) (cid u : String) (qd : QuizData),
        storage (quizStorageKey cid) = some qd →
        Except.map QuizResult.score (submit_quiz storage cid ⟨u, []⟩) = .ok 0) ∧
    Except.map (fun r => (r.correct_answers, r.score))
        (submit_quiz storageEx2 "02" ⟨"u", [⟨"q1", 0⟩, ⟨"q2", 1⟩]⟩) = .ok (1, 50) := by
  refine ⟨?_, ?_, ?_⟩
  · intro storage cid sub qd res hqd h
    unfold submit_quiz at h
    rw [hqd] at h
    obtain rfl : _ = res := by simpa using h
    constructor
    · cases hlen : sub.answers.length with
      | zero => simp [hlen]
      | succ m => simp [hlen]
    · rfl
  · intro storage cid u qd hqd
    unfold submit_quiz
    rw [hqd]
    rfl
  · have hq : storageEx2 (quizStorageKey "02") = some quizEx2 := rfl
    have e1 : ("q1" == "q2") = false := rfl
    have e2 : ("q2" == "q2") = true := rfl
    have e3 : ("q1" == "q1") = true := rfl
    unfold submit_quiz
    rw [hq]
    simp only [gradeAnswers, gradeOne, quizEx2, q1ex, q2ex, List.find?, e1, e2, e3]
    norm_num [Except.map, generate_feedback]

/-- C3, witness at the concrete quiz and submissions. -/
theorem C3_submit_scoring_witness :
    Except.map QuizResult.score (submit_quiz storageEx2 "02" ⟨"u", []⟩) = .ok 0 :=
  C3_submit_scoring.2.1 storageEx2 "02" "u" quizEx2 rfl

/-- C5, counterexample.  The chapter id is interpolated verbatim into the quiz
storage key: for the accepted chapter id "1" the consulted key is
`quiz-1.json`, not the two-digit `quiz-01.json`, so with the quiz stored only
under the two-digit key both operations report not-found. -/
theorem C5_counterexample :
    quizStorageKey "1" = "genai-fundamentals/quizzes/quiz-1.json" ∧
    quizStorageKey "1" ≠ "genai-fundamentals/quizzes/quiz-01.json" ∧
    get_quiz (fun _ => none)
        (fun k => if k = "genai-fundamentals/quizzes/quiz-01.json" then some quizEx else none)
        "1" = .error () ∧
    submit_quiz
        (fun k => if k = "genai-fundamentals/quizzes/quiz-01.json" then some quizEx else none)
        "1" ⟨"u", []⟩ = .error () := by
  exact ⟨rfl, by decide, rfl, rfl⟩

/-- C5, amended.  `get_quiz` and `submit_quiz` fetch the quiz from the durable
store at key `course_prefix/quizzes/quiz-CID.json` with the chapter id CID used
verbatim (no zero-padding): both operations observe the store only at that key,
and the two-digit naming convention is met exactly when the caller already
passes a two-digit id. -/
theorem C5_quiz_key_amended :
    (∀ cid, quizStorageKey cid = "genai-fundamentals/quizzes/quiz-" ++ cid ++ ".json") ∧
    (∀ (cache : QuizCache) (st st2 : String → Option QuizData) (cid : String),
        st (quizStorageKey cid) = st2 (quizStorageKey cid) →
        get_quiz cache st cid = get_quiz cache st2 cid) ∧
    (∀ (st st2 : String → Option QuizData) (cid : String) (sub : QuizSubmission),
        st (quizStorageKey cid) = st2 (quizStorageKey cid) →
        submit_quiz st cid sub = submit_quiz st2 cid sub) ∧
    quizStorageKey "01" = "genai-fundamentals/quizzes/quiz-01.json" := by
  refine ⟨fun cid => rfl, ?_, ?_, rfl⟩
  · intro cache st st2 cid h
    unfold get_quiz
    rw [h]
  · intro st st2 cid sub h
    unfold submit_quiz
    rw [h]

/-- C5, witness for the amended theorem: two stores that agree at the verbatim
key produce identical results even though they differ elsewhere. -/
theorem C5_quiz_key_amended_witness :
    get_quiz (fun _ => none)
        (fun k => if k = "elsewhere" then some quizEx else none) "7"
      = get_quiz (fun _ => none) (fun _ => (none : Option QuizData)) "7" := by
  exact C5_quiz_key_amended.2.1 (fun _ => none)
    (fun k => if k = "elsewhere" then some quizEx else none) (fun _ => none) "7" rfl

/-- C9.  Correctness of one graded answer in `submit_quiz`: with
`correct_answer_index` defined it is direct index comparison; otherwise the
stored `correct_answer` boolean maps to required index 1 (true) or 0 (false or
missing); and the grading loop records exactly this outcome for a matched
answer. -/
theorem C9_grading_rule (q : QuestionData) (sel : Int) :
    (∀ ci, q.correct_answer_index = some ci → gradeOne q sel = (decide (sel = ci), ci)) ∧
    (q.correct_answer_index = none → q.correct_answer = some true →
        gradeOne q sel = (decide (sel = 1), 1)) ∧
    (q.correct_answer_index = none →
        (q.correct_answer = some false ∨ q.correct_answer = none) →
        gradeOne q sel = (decide (sel = 0), 0)) ∧
    (∀ (questions : List QuestionData) (a : QuizAnswer),
        questions.find? (fun p => p.question_id == a.question_id) = some q →
        gradeAnswers questions [a] =
          ((if (gradeOne q a.selected_index).1 then 1 else 0),
            [⟨a.question_id, (gradeOne q a.selected_index).1, a.selected_index,
              (gradeOne q a.selected_index).2, q.explanation.getD ""⟩])) := by
  refine ⟨?_, ?_, ?_, ?_⟩
  · intro ci hci
    simp [gradeOne, hci]
  · intro hci hb
    simp [gradeOne, hci, hb]
  · intro hci hb
    rcases hb with hb | hb <;> simp [gradeOne, hci, hb]
  · intro questions a hfind
    simp [gradeAnswers, hfind]

/-- C9, witness: both grading branches at concrete questions. -/
theorem C9_grading_rule_witness :
    gradeOne q2ex 2 = (true, 2) ∧
    gradeOne ⟨"q3", "true_false", "Is Z", ["False", "True"], "easy", none, some true,
        none⟩ 1 = (true, 1) := by
  constructor
  · exact (C9_grading_rule q2ex 2).1 2 rfl
  · exact (C9_grading_rule
      ⟨"q3", "true_false", "Is Z", ["False", "True"], "easy", none, some true, none⟩
      1).2.1 rfl rfl

theorem firstGoodHit_empty (l : List String) :
    firstGoodHit (fun _ => none) l = none := by
  induction l with
  | nil => rfl
  | cons k rest ih => simpa [firstGoodHit] using ih

theorem parse_chapter_fields (content cid : String) (ch : ChapterContent)
    (hp : parse_chapter_markdown content cid = some ch) :
    (ch.next_chapter, ch.previous_chapter)
      = (match pyToInt cid with
         | some n => (if n < 10 then some (fmt2Int (n + 1)) else none,
                      if 1 < n then some (fmt2Int (n - 1)) else none)
         | none => (none, none)) ∧
    ch.is_free = (if pyIsDigit cid then decide ((digitsToNat cid : Int) ≤ 3) else false) ∧
    ch.has_quiz = true := by
  simp only [parse_chapter_markdown] at hp
  rcases Option.map_eq_some'.mp hp with ⟨m, -, rfl⟩
  exact ⟨rfl, rfl, rfl⟩

/-- C10.  Every chapter the service assembles from raw markdown has
`has_quiz = true` unconditionally: the field is a hardcoded constant of the
parser, independent of the frontmatter and of whether a quiz actually exists
for that chapter. -/
theorem C10_has_quiz_hardcoded (content chapter_id : String) (ch : ChapterContent)
    (hp : parse_chapter_markdown content chapter_id = some ch) :
    ch.has_quiz = true := by
  simp only [parse_chapter_markdown] at hp
  rcases Option.map_eq_some'.mp hp with ⟨m, -, rfl⟩
  rfl

/-- C10, witness at a concrete markdown input. -/
theorem C10_has_quiz_hardcoded_witness :
    (⟨"02", "Chapter 02", "beginner", "hello", some "03", some "01", 180, true, true⟩ :
      ChapterContent).has_quiz = true :=
  C10_has_quiz_hardcoded "hello" "02" _ (by decide)

/-- C8.  For numeric chapter ids 1..10, the chapter built by the parse step of
`get_chapter` has: no previous chapter for 1 and otherwise the adjacent lower
two-digit id; no next chapter for 10 and otherwise the adjacent higher
two-digit id; and `is_free` exactly for ids up to 3.  The second conjunct links
this to `get_chapter` itself on the storage-fetch path. -/
theorem C8_navigation_free (n : Nat) (content : String) (ch : ChapterContent)
    (h1 : 1 ≤ n) (h2 : n ≤ 10)
    (hp : parse_chapter_markdown content (fmt2Int (n : Int)) = some ch) :
    (ch.previous_chapter = (if n = 1 then none else some (fmt2Int ((n : Int) - 1))) ∧
     ch.next_chapter = (if n = 10 then none else some (fmt2Int ((n : Int) + 1))) ∧
     ch.is_free = decide (n ≤ 3)) ∧
    (∀ storage : String → Option String,
        storage (chapterStorageKey (fmt2Int (n : Int))) = some content → content ≠ "" →
        (get_chapter (fun _ => none) storage (fmt2Int (n : Int))).1 = some ch) := by
  have hi : pyToInt (fmt2Int (n : Int)) = some (n : Int) := by
    interval_cases n <;> decide
  have hd : pyIsDigit (fmt2Int (n : Int)) = true := by
    interval_cases n <;> decide
  have hn : digitsToNat (fmt2Int (n : Int)) = n := by
    interval_cases n <;> decide
  constructor
  · obtain ⟨hnav, hfree, -⟩ := parse_chapter_fields content (fmt2Int (n : Int)) ch hp
    simp only [hi] at hnav
    injection hnav with hnext hprev
    refine ⟨?_, ?_, ?_⟩
    · rw [hprev]
      by_cases hone : n = 1
      · subst hone; norm_num
      · rw [if_pos (show (1 : Int) < (n : Int) by omega), if_neg hone]
    · rw [hnext]
      by_cases hten : n = 10
      · subst hten; norm_num
      · rw [if_pos (show (n : Int) < (10 : Int) by omega), if_neg hten]
    · rw [hfree, if_pos hd, hn, decide_eq_decide]
      omega
  · intro storage hst hne
    have hnorm : normalizeChapterId (fmt2Int (n : Int)) = fmt2Int (n : Int) := by
      interval_cases n <;> decide
    simp only [get_chapter, hnorm, firstGoodHit_empty, hst]
    rw [if_neg hne, hp]

/-- C8, witness at the concrete chapter id 2. -/
theorem C8_navigation_free_witness :
    (⟨"02", "Chapter 02", "beginner", "hello", some "03", some "01", 180, true, true⟩ :
        ChapterContent).previous_chapter
      = (if (2 : Nat) = 1 then none else some (fmt2Int (((2 : Nat) : Int) - 1))) ∧
    (⟨"02", "Chapter 02", "beginner", "hello", some "03", some "01", 180, true, true⟩ :
        ChapterContent).next_chapter
      = (if (2 : Nat) = 10 then none else some (fmt2Int (((2 : Nat) : Int) + 1))) ∧
    (⟨"02", "Chapter 02", "beginner", "hello", some "03", some "01", 180, true, true⟩ :
        ChapterContent).is_free = decide ((2 : Nat) ≤ 3) :=
  (C8_navigation_free 2 "hello" _ (by omega) (by omega) (by decide)).1

/-- C4.  About `get_chapter` id normalization: "1" normalizes to "01"; the
lookup probes the original and then the normalized cache key (first parsing hit
wins); as long as the cache holds no well-formed entry under the legacy key
`chapter:1`, `get_chapter "1"` and `get_chapter "01"` return identical results
and leave identical caches; and on a miss the fetched chapter is cached under
the normalized key. -/
theorem C4_id_normalization (cache : ChapterCache) (storage : String → Option String)
    (h : ∀ c, cache (chapterCacheKey "1") ≠ some (CVal.good c)) :
    get_chapter cache storage "1" = get_chapter cache storage "01" ∧
    normalizeChapterId "1" = "01" ∧
    chapterCacheKeys "1" = [chapterCacheKey "1", chapterCacheKey "01"] ∧
    chapterCacheKeys "01" = [chapterCacheKey "01"] ∧
    (∀ (st : String → Option String) (content : String) (ch : ChapterContent),
        st (chapterStorageKey "01") = some content → content ≠ "" →
        parse_chapter_markdown content "01" = some ch →
        (get_chapter (fun _ => none) st "1").2 (chapterCacheKey "01")
          = some (CVal.good ch)) := by
  refine ⟨?_, rfl, rfl, rfl, ?_⟩
  · have hfg : firstGoodHit cache (chapterCacheKeys "1")
        = firstGoodHit cache (chapterCacheKeys "01") := by
      rw [show chapterCacheKeys "1" = [chapterCacheKey "1", chapterCacheKey "01"] from rfl,
          show chapterCacheKeys "01" = [chapterCacheKey "01"] from rfl]
      cases hc : cache (chapterCacheKey "1") with
      | none => simp [firstGoodHit, hc]
      | some cv =>
        cases cv with
        | good c => exact absurd hc (h c)
        | bad => simp [firstGoodHit, hc]
    unfold get_chapter
    rw [hfg]
    rfl
  · intro st content ch hst hne hp
    have hnorm : normalizeChapterId "1" = "01" := rfl
    simp only [get_chapter, hnorm, firstGoodHit_empty, hst]
    rw [if_neg hne, hp]
    simp [updateChapterCache]

/-- C4, witness: a concrete empty cache and a store holding chapter "01". -/
theorem C4_id_normalization_witness :
    get_chapter (fun _ => none)
        (fun k => if k = chapterStorageKey "01" then some "hello" else none) "1"
      = get_chapter (fun _ => none)
        (fun k => if k = chapterStorageKey "01" then some "hello" else none) "01" :=
  (C4_id_normalization (fun _ => none)
    (fun k => if k = chapterStorageKey "01" then some "hello" else none)
    (fun c => by simp)).1

end CourseBackend
